import Mathlib

set_option maxRecDepth 100000

/-!
Shallow embedding of IronRDP's suppress-output PDU codec
(`crates/ironrdp-pdu/src/rdp/suppress_output.rs`) and of the security-data
reference fixtures (`crates/ironrdp-testsuite-core/src/security_data.rs`),
together with spec-modelled definitions for the parts the repository
delegates to (the geometry trailer and the gcc security-data codec).

Bytes are modelled as `Nat` values (< 256 on the wire); byte streams as
`List Nat`; fallible reads return a `ParseResult`.
-/

/-- Error kinds for the byte-stream readers, mirroring the `std::io::ErrorKind`
values the codec uses: end-of-input (`UnexpectedEof`) and `InvalidData`. -/
inductive IoErrorKind where
  | unexpectedEof
  | invalidData
deriving DecidableEq, Repr

/-- Rust's `Result`, specialised to a value-plus-remaining-stream payload on
success: either `ok value rest` or `error kind`. -/
inductive ParseResult (ε α : Type) where
  | ok (value : α) (rest : List Nat)
  | error (e : ε)
deriving DecidableEq, Repr

/-- Read one byte from the stream (mirrors `ReadBytesExt::read_u8`):
fails with `UnexpectedEof` on an empty stream. -/
def readU8 : List Nat → ParseResult IoErrorKind Nat
  | [] => .error .unexpectedEof
  | b :: rest => .ok b rest

/-- Read a 4-byte little-endian unsigned integer (mirrors
`ReadBytesExt::read_u32::<LittleEndian>`). -/
def readU32LE : List Nat → ParseResult IoErrorKind Nat
  | b0 :: b1 :: b2 :: b3 :: rest =>
      .ok (b0 + b1 * 256 + b2 * 65536 + b3 * 16777216) rest
  | _ => .error .unexpectedEof

/-- Read exactly `n` bytes (mirrors `Read::read_exact`): fails with
`UnexpectedEof` when fewer than `n` bytes remain. -/
def readExact (n : Nat) (s : List Nat) : ParseResult IoErrorKind (List Nat) :=
  if n ≤ s.length then .ok (s.take n) (s.drop n) else .error .unexpectedEof

/-- Little-endian serialisation of a 16-bit value (low byte first). -/
def u16le (n : Nat) : List Nat := [n % 256, n / 256 % 256]

/-- Little-endian serialisation of a 32-bit value (low byte first); mirrors
`u32::to_le_bytes`. -/
def u32le (n : Nat) : List Nat :=
  [n % 256, n / 256 % 256, n / 65536 % 256, n / 16777216 % 256]

example : readU8 [5, 6] = .ok 5 [6] := by decide
example : readU32LE [0x1b, 0, 0, 0, 7] = .ok 0x1b [7] := by decide
example : readExact 2 [1, 2, 3] = .ok [1, 2] [3] := by decide
example : u32le 184 = [0xb8, 0, 0, 0] := by decide

/-- `AllowDisplayUpdatesType` from `suppress_output.rs`: a one-byte enum with
`SuppressDisplayUpdates = 0x00` and `AllowDisplayUpdates = 0x01`. -/
inductive AllowDisplayUpdatesType where
  | suppressDisplayUpdates
  | allowDisplayUpdates
deriving DecidableEq, Repr

/-- `AllowDisplayUpdatesType::from_u8`: `0x00` and `0x01` map to the two
variants, every other byte to `None`. -/
def AllowDisplayUpdatesType.from_u8 : Nat → Option AllowDisplayUpdatesType
  | 0x00 => some .suppressDisplayUpdates
  | 0x01 => some .allowDisplayUpdates
  | _ => none

/-- `AllowDisplayUpdatesType::as_u8` (`self as u8`, using the `repr(u8)`
discriminant values). -/
def AllowDisplayUpdatesType.as_u8 : AllowDisplayUpdatesType → Nat
  | .suppressDisplayUpdates => 0x00
  | .allowDisplayUpdates => 0x01

/-- Modelled from the spec: the geometry trailer (`InclusiveRectangle`, from
the crate's `geometry` module, which is not under src/). The control PDU
delegates to it (§4.2 step 3; §6 "format delegated"). It is the desktop
rectangle: four 16-bit fields `left`, `top`, `right`, `bottom`. -/
structure InclusiveRectangle where
  left : Nat
  top : Nat
  right : Nat
  bottom : Nat
deriving DecidableEq, Repr

/-- Modelled from the spec: `InclusiveRectangle::from_buffer` reads the four
16-bit fields little-endian in order `left`, `top`, `right`, `bottom`,
failing with `UnexpectedEof` on truncated input (§4.1, §4.2 step 3). -/
def InclusiveRectangle.from_buffer (s : List Nat) :
    ParseResult IoErrorKind InclusiveRectangle :=
  match s with
  | b0 :: b1 :: b2 :: b3 :: b4 :: b5 :: b6 :: b7 :: rest =>
      .ok { left := b0 + b1 * 256, top := b2 + b3 * 256,
            right := b4 + b5 * 256, bottom := b6 + b7 * 256 } rest
  | _ => .error .unexpectedEof

/-- Modelled from the spec: `InclusiveRectangle::to_buffer` writes the four
16-bit fields little-endian in the same order. -/
def InclusiveRectangle.to_buffer (r : InclusiveRectangle) : List Nat :=
  u16le r.left ++ u16le r.top ++ u16le r.right ++ u16le r.bottom

/-- Modelled from the spec: `InclusiveRectangle::buffer_length` — four 2-byte
fields, 8 bytes. -/
def InclusiveRectangle.buffer_length (_ : InclusiveRectangle) : Nat := 8

/-- Validity of a rectangle value: each field fits in 16 bits (in the source
the fields are `u16`, so every representable value is valid). -/
def InclusiveRectangle.isValid (r : InclusiveRectangle) : Bool :=
  decide (r.left < 65536) && decide (r.top < 65536) &&
    decide (r.right < 65536) && decide (r.bottom < 65536)

/-- `SuppressOutputPdu` from `suppress_output.rs`: an optional desktop
rectangle; the wire discriminant is derived from its presence, not stored. -/
structure SuppressOutputPdu where
  desktop_rect : Option InclusiveRectangle
deriving DecidableEq, Repr

/-- Validity of a PDU value: the rectangle, when present, is valid. -/
def SuppressOutputPdu.isValid (p : SuppressOutputPdu) : Bool :=
  match p.desktop_rect with
  | none => true
  | some r => r.isValid

/-- `SuppressOutputPdu::from_buffer`: read the discriminant byte and map it
through `AllowDisplayUpdatesType::from_u8` (error `InvalidData` when it maps
to no variant), read and discard three padding bytes, then decode the
rectangle exactly when the discriminant is `AllowDisplayUpdates`. -/
def SuppressOutputPdu.from_buffer (s : List Nat) :
    ParseResult IoErrorKind SuppressOutputPdu :=
  match readU8 s with
  | .error e => .error e
  | .ok b s =>
    match AllowDisplayUpdatesType.from_u8 b with
    | none => .error .invalidData
    | some allow_display_updates =>
      match readU8 s with
      | .error e => .error e
      | .ok _ s =>
        match readU8 s with
        | .error e => .error e
        | .ok _ s =>
          match readU8 s with
          | .error e => .error e
          | .ok _ s =>
            if allow_display_updates = AllowDisplayUpdatesType.allowDisplayUpdates then
              match InclusiveRectangle.from_buffer s with
              | .error e => .error e
              | .ok rect s => .ok { desktop_rect := some rect } s
            else
              .ok { desktop_rect := none } s

/-- `SuppressOutputPdu::to_buffer`: derive the discriminant from the
rectangle's presence, write it, write three zero padding bytes, then the
rectangle's bytes when present. Writing to a byte vector cannot fail, so the
result is the written byte list. -/
def SuppressOutputPdu.to_buffer (p : SuppressOutputPdu) : List Nat :=
  let allow_display_updates :=
    match p.desktop_rect with
    | some _ => AllowDisplayUpdatesType.allowDisplayUpdates
    | none => AllowDisplayUpdatesType.suppressDisplayUpdates
  allow_display_updates.as_u8 :: 0 :: 0 :: 0 ::
    (match p.desktop_rect with
     | some rect => rect.to_buffer
     | none => [])

/-- `SuppressOutputPdu::buffer_length`: 1 discriminant byte + 3 padding bytes
+ the rectangle's length when present. -/
def SuppressOutputPdu.buffer_length (p : SuppressOutputPdu) : Nat :=
  1 + 3 +
    (match p.desktop_rect with
     | some r => r.buffer_length
     | none => 0)

example : SuppressOutputPdu.from_buffer [0, 0, 0, 0] =
    .ok { desktop_rect := none } [] := by decide
example : SuppressOutputPdu.from_buffer [2, 0, 0, 0] =
    .error .invalidData := by decide
example : SuppressOutputPdu.from_buffer [1, 9, 9, 9, 1, 0, 2, 0, 3, 0, 4, 0, 7] =
    .ok { desktop_rect := some { left := 1, top := 2, right := 3, bottom := 4 } } [7] := by
  decide
example : SuppressOutputPdu.to_buffer
    { desktop_rect := some { left := 1, top := 2, right := 3, bottom := 4 } } =
    [1, 0, 0, 0, 1, 0, 2, 0, 3, 0, 4, 0] := by decide

namespace EncryptionMethod

/-- Modelled from the spec: the named encryption-method bit constants (§9
"bit-flag enumerations"; the `gcc` module defining them is not under src/).
The numeric bit assignments are the protocol's: 40-bit = 0x01,
128-bit = 0x02, 56-bit = 0x08, FIPS = 0x10; their union is the 0x1b the
client fixture encodes. -/
def BIT_40 : Nat := 0x01

/-- 128-bit encryption method flag. -/
def BIT_128 : Nat := 0x02

/-- 56-bit encryption method flag. -/
def BIT_56 : Nat := 0x08

/-- FIPS encryption method flag. -/
def FIPS : Nat := 0x10

end EncryptionMethod

/-- Modelled from the spec: `EncryptionLevel` (§3: "enumerated: None, Low,
ClientCompatible, High, Fips"); the `gcc` module defining it is not under
src/. Wire values are 0..4 in that order (the fixtures pair level byte 0x00
with `None` and 0x02 with `ClientCompatible`). -/
inductive EncryptionLevel where
  | level_none
  | low
  | clientCompatible
  | high
  | fips
deriving DecidableEq, Repr

/-- Modelled from the spec: mapping of the 4-byte wire value to the
enumerated encryption level; values outside 0..4 are invalid (fail closed,
§7 error taxonomy (b)). -/
def EncryptionLevel.from_u32 : Nat → Option EncryptionLevel
  | 0 => some .level_none
  | 1 => some .low
  | 2 => some .clientCompatible
  | 3 => some .high
  | 4 => some .fips
  | _ => none

/-- `ClientSecurityData` mirrored from the fixtures: an encryption-methods
bit-flag set and the extended (reserved) field. -/
structure ClientSecurityData where
  encryption_methods : Nat
  ext_encryption_methods : Nat
deriving DecidableEq, Repr

/-- Modelled from the spec: the client security structure decoder — "4 bytes
encryption-method bit-flags, 4 bytes extended-encryption-method" (§6), both
little-endian; the `gcc` codec is not under src/. -/
def ClientSecurityData.from_buffer (s : List Nat) :
    ParseResult IoErrorKind ClientSecurityData :=
  match readU32LE s with
  | .error e => .error e
  | .ok encryption_methods s =>
    match readU32LE s with
    | .error e => .error e
    | .ok ext_encryption_methods s =>
        .ok { encryption_methods, ext_encryption_methods } s

/-- Modelled from the spec: the client security structure encoder — the two
fixed 4-byte little-endian fields in the same order. -/
def ClientSecurityData.to_buffer (c : ClientSecurityData) : List Nat :=
  u32le c.encryption_methods ++ u32le c.ext_encryption_methods

/-- `ServerSecurityData` mirrored from the fixtures: selected encryption
method (bit-flag value), encryption level, optional 32-byte server random
nonce, certificate byte blob. -/
structure ServerSecurityData where
  encryption_method : Nat
  encryption_level : EncryptionLevel
  server_random : Option (List Nat)
  server_cert : List Nat
deriving DecidableEq, Repr

/-- Decode errors of the server security structure: truncation, an invalid
encryption-level enumeration value, and a server-random length prefix that
mismatches the fixed 32-byte nonce size. -/
inductive SecurityDataError where
  | unexpectedEof
  | invalidEncryptionLevel
  | invalidServerRandomLen
deriving DecidableEq, Repr

/-- Modelled from the spec: `ServerSecurityData::from_buffer` (the `gcc`
codec is not under src/). Per §4.3: read the 4-byte encryption-method and
4-byte encryption-level fields (the level is validated against its
enumeration, §7(b)); if both indicate "no encryption negotiated" stop with
the optional fields absent (§4.3 step 2, 8 bytes consumed); otherwise read
the two 4-byte length prefixes and then the nonce and certificate payloads —
both prefixes precede both payloads, the order fixed by the repository's
reference vector `SERVER_SECURITY_DATA_WITH_OPTIONAL_FIELDS_BUFFER` (the
authority where §4.3's prose interleaves them). The nonce is exactly 32
bytes when present (§3), so a nonce-length prefix ≠ 32 is a hard
length-mismatch failure (§3, §4.3 step 4); every read is bounded by the
remaining input and fails with `UnexpectedEof` rather than reading past the
end. -/
def ServerSecurityData.from_buffer (s : List Nat) :
    ParseResult SecurityDataError ServerSecurityData :=
  match readU32LE s with
  | .error _ => .error .unexpectedEof
  | .ok encryption_method s =>
    match readU32LE s with
    | .error _ => .error .unexpectedEof
    | .ok level_raw s =>
      match EncryptionLevel.from_u32 level_raw with
      | none => .error .invalidEncryptionLevel
      | some encryption_level =>
        if encryption_method = 0 ∧ encryption_level = EncryptionLevel.level_none then
          .ok { encryption_method, encryption_level,
                server_random := none, server_cert := [] } s
        else
          match readU32LE s with
          | .error _ => .error .unexpectedEof
          | .ok server_random_len s =>
            if server_random_len ≠ 32 then .error .invalidServerRandomLen
            else
              match readU32LE s with
              | .error _ => .error .unexpectedEof
              | .ok server_cert_len s =>
                match readExact 32 s with
                | .error _ => .error .unexpectedEof
                | .ok server_random s =>
                  match readExact server_cert_len s with
                  | .error _ => .error .unexpectedEof
                  | .ok server_cert s =>
                    .ok { encryption_method, encryption_level,
                          server_random := some server_random, server_cert } s

/-- Fixture `CLIENT_SECURITY_DATA_BUFFER` from `security_data.rs`. -/
def CLIENT_SECURITY_DATA_BUFFER : List Nat :=
  [0x1b, 0x00, 0x00, 0x00,
   0x00, 0x00, 0x00, 0x00]

/-- Fixture `SERVER_SECURITY_DATA_WITHOUT_OPTIONAL_FIELDS_BUFFER` from
`security_data.rs`. -/
def SERVER_SECURITY_DATA_WITHOUT_OPTIONAL_FIELDS_BUFFER : List Nat :=
  [0x00, 0x00, 0x00, 0x00,
   0x00, 0x00, 0x00, 0x00]

/-- Fixture `SERVER_SECURITY_DATA_WITH_OPTIONAL_FIELDS_PREFIX_BUFFER` from
`security_data.rs`: encryption method 0x02, encryption level 0x02. -/
def SERVER_SECURITY_DATA_WITH_OPTIONAL_FIELDS_PREFIX_BUFFER : List Nat :=
  [0x02, 0x00, 0x00, 0x00,
   0x02, 0x00, 0x00, 0x00]

/-- Fixture `SERVER_RANDOM_BUFFER` from `security_data.rs` (32 bytes). -/
def SERVER_RANDOM_BUFFER : List Nat :=
  [0x10, 0x11, 0x77, 0x20, 0x30, 0x61, 0x0a, 0x12, 0xe4, 0x34, 0xa1, 0x1e,
   0xf2, 0xc3, 0x9f, 0x31, 0x7d, 0xa4, 0x5f, 0x01, 0x89, 0x34, 0x96, 0xe0,
   0xff, 0x11, 0x08, 0x69, 0x7f, 0x1a, 0xc3, 0xd2]

/-- Fixture `SERVER_CERT_BUFFER` from `security_data.rs` (184 bytes). -/
def SERVER_CERT_BUFFER : List Nat :=
  [0x01, 0x00, 0x00, 0x00, 0x01, 0x00, 0x00, 0x00, 0x01, 0x00, 0x00, 0x00,
   0x06, 0x00, 0x5c, 0x00, 0x52, 0x53, 0x41, 0x31, 0x48, 0x00, 0x00, 0x00,
   0x00, 0x02, 0x00, 0x00, 0x3f, 0x00, 0x00, 0x00, 0x01, 0x00, 0x01, 0x00,
   0xcb, 0x81, 0xfe, 0xba, 0x6d, 0x61, 0xc3, 0x55, 0x05, 0xd5, 0x5f, 0x2e,
   0x87, 0xf8, 0x71, 0x94, 0xd6, 0xf1, 0xa5, 0xcb, 0xf1, 0x5f, 0x0c, 0x3d,
   0xf8, 0x70, 0x02, 0x96, 0xc4, 0xfb, 0x9b, 0xc8, 0x3c, 0x2d, 0x55, 0xae,
   0xe8, 0xff, 0x32, 0x75, 0xea, 0x68, 0x79, 0xe5, 0xa2, 0x01, 0xfd, 0x31,
   0xa0, 0xb1, 0x1f, 0x55, 0xa6, 0x1f, 0xc1, 0xf6, 0xd1, 0x83, 0x88, 0x63,
   0x26, 0x56, 0x12, 0xbc, 0x00, 0x00, 0x00, 0x00, 0x00, 0x00, 0x00, 0x00,
   0x08, 0x00, 0x48, 0x00, 0xe9, 0xe1, 0xd6, 0x28, 0x46, 0x8b, 0x4e, 0xf5,
   0x0a, 0xdf, 0xfd, 0xee, 0x21, 0x99, 0xac, 0xb4, 0xe1, 0x8f, 0x5f, 0x81,
   0x57, 0x82, 0xef, 0x9d, 0x96, 0x52, 0x63, 0x27, 0x18, 0x29, 0xdb, 0xb3,
   0x4a, 0xfd, 0x9a, 0xda, 0x42, 0xad, 0xb5, 0x69, 0x21, 0x89, 0x0e, 0x1d,
   0xc0, 0x4c, 0x1a, 0xa8, 0xaa, 0x71, 0x3e, 0x0f, 0x54, 0xb9, 0x9a, 0xe4,
   0x99, 0x68, 0x3f, 0x6c, 0xd6, 0x76, 0x84, 0x61, 0x00, 0x00, 0x00, 0x00,
   0x00, 0x00, 0x00, 0x00]

/-- Fixture `CLIENT_SECURITY_DATA` from `security_data.rs`: the union of the
four named method bits, extended field zero. -/
def CLIENT_SECURITY_DATA : ClientSecurityData :=
  { encryption_methods :=
      EncryptionMethod.BIT_40 ||| EncryptionMethod.BIT_128 |||
        EncryptionMethod.BIT_56 ||| EncryptionMethod.FIPS,
    ext_encryption_methods := 0 }

/-- Fixture `SERVER_SECURITY_DATA_WITHOUT_OPTIONAL_FIELDS` from
`security_data.rs`: empty method, level `None`, no nonce, empty cert. -/
def SERVER_SECURITY_DATA_WITHOUT_OPTIONAL_FIELDS : ServerSecurityData :=
  { encryption_method := 0,
    encryption_level := EncryptionLevel.level_none,
    server_random := none,
    server_cert := [] }

/-- Fixture `SERVER_SECURITY_DATA_WITH_MISMATCH_OF_REQUIRED_AND_OPTIONAL_FIELDS`
from `security_data.rs`: empty method and level `None`, yet a populated
nonce and certificate. -/
def SERVER_SECURITY_DATA_WITH_MISMATCH_OF_REQUIRED_AND_OPTIONAL_FIELDS :
    ServerSecurityData :=
  { encryption_method := 0,
    encryption_level := EncryptionLevel.level_none,
    server_random := some SERVER_RANDOM_BUFFER,
    server_cert := SERVER_CERT_BUFFER }

/-- Fixture `SERVER_SECURITY_DATA_WITH_OPTIONAL_FIELDS_BUFFER` from
`security_data.rs` (232 bytes), translated from its `concat_arrays!`
construction: prefix, little-endian nonce length, little-endian certificate
length, nonce bytes, certificate bytes. -/
def SERVER_SECURITY_DATA_WITH_OPTIONAL_FIELDS_BUFFER : List Nat :=
  SERVER_SECURITY_DATA_WITH_OPTIONAL_FIELDS_PREFIX_BUFFER ++
    u32le SERVER_RANDOM_BUFFER.length ++
    u32le SERVER_CERT_BUFFER.length ++
    SERVER_RANDOM_BUFFER ++
    SERVER_CERT_BUFFER

/-- Fixture `SERVER_SECURITY_DATA_WITH_INVALID_SERVER_RANDOM_BUFFER` from
`security_data.rs` (233 bytes): like the valid buffer but the nonce-length
field is 33 — one more than the 32 nonce bytes supplied — with one extra
byte inserted before the certificate bytes. -/
def SERVER_SECURITY_DATA_WITH_INVALID_SERVER_RANDOM_BUFFER : List Nat :=
  SERVER_SECURITY_DATA_WITH_OPTIONAL_FIELDS_PREFIX_BUFFER ++
    u32le (SERVER_RANDOM_BUFFER.length + 1) ++
    u32le SERVER_CERT_BUFFER.length ++
    SERVER_RANDOM_BUFFER ++
    [0] ++
    SERVER_CERT_BUFFER

example : SERVER_RANDOM_BUFFER.length = 32 := by decide
example : SERVER_CERT_BUFFER.length = 184 := by decide
example : SERVER_SECURITY_DATA_WITH_OPTIONAL_FIELDS_BUFFER.length = 232 := by decide
example : SERVER_SECURITY_DATA_WITH_INVALID_SERVER_RANDOM_BUFFER.length = 233 := by decide
example : CLIENT_SECURITY_DATA.encryption_methods = 0x1b := by decide

/-- The byte layout claim C3 asserts, built following the spec's words (§6):
each 4-byte little-endian length prefix immediately before its own payload —
nonce length, nonce bytes, certificate length, certificate bytes. -/
def serverSecurityInterleavedLayout : List Nat :=
  SERVER_SECURITY_DATA_WITH_OPTIONAL_FIELDS_PREFIX_BUFFER ++
    u32le SERVER_RANDOM_BUFFER.length ++
    SERVER_RANDOM_BUFFER ++
    u32le SERVER_CERT_BUFFER.length ++
    SERVER_CERT_BUFFER

/-- Input bytes whose required fields are empty (the 8 zero bytes) but which
continue with populated length-prefixed optional fields — the mismatch
fixture's field values laid out on the wire in the reference vector's
order. -/
def SERVER_SECURITY_DATA_MISMATCH_INPUT : List Nat :=
  SERVER_SECURITY_DATA_WITHOUT_OPTIONAL_FIELDS_BUFFER ++
    u32le SERVER_RANDOM_BUFFER.length ++
    u32le SERVER_CERT_BUFFER.length ++
    SERVER_RANDOM_BUFFER ++
    SERVER_CERT_BUFFER

/-- A byte other than `0x00` and `0x01` maps to no display-updates variant. -/
theorem from_u8_eq_none (b : Nat) (h0 : b ≠ 0) (h1 : b ≠ 1) :
    AllowDisplayUpdatesType.from_u8 b = none := by
  match b with
  | 0 => exact absurd rfl h0
  | 1 => exact absurd rfl h1
  | n + 2 => rfl

/-- Decoding the rectangle's encoding recovers the rectangle and leaves the
appended bytes untouched, for every valid (16-bit-bounded) rectangle. -/
theorem rect_round_trip (r : InclusiveRectangle) (h : r.isValid = true)
    (rest : List Nat) :
    InclusiveRectangle.from_buffer (r.to_buffer ++ rest) = .ok r rest := by
  obtain ⟨l, t, ri, b⟩ := r
  simp only [InclusiveRectangle.isValid, Bool.and_eq_true, decide_eq_true_eq] at h
  obtain ⟨⟨⟨h1, h2⟩, h3⟩, h4⟩ := h
  simp [InclusiveRectangle.to_buffer, u16le, InclusiveRectangle.from_buffer]
  omega

/-- A successful rectangle decode consumes exactly 8 bytes. -/
theorem rect_from_buffer_drop (s : List Nat) (r : InclusiveRectangle)
    (rem : List Nat) (h : InclusiveRectangle.from_buffer s = .ok r rem) :
    rem = List.drop 8 s := by
  match s with
  | b0 :: b1 :: b2 :: b3 :: b4 :: b5 :: b6 :: b7 :: rest =>
    simp only [InclusiveRectangle.from_buffer, ParseResult.ok.injEq] at h
    simp [h.2]
  | [] | [_] | [_, _] | [_, _, _] | [_, _, _, _] | [_, _, _, _, _]
  | [_, _, _, _, _, _] | [_, _, _, _, _, _, _] =>
    simp [InclusiveRectangle.from_buffer] at h

/-- Claim C1: for every valid `SuppressOutputPdu` value `v` (desktop
rectangle absent or a valid rectangle), decoding the bytes produced by
encoding `v` succeeds, yields a value equal to `v`, and consumes the whole
encoding. -/
theorem c1_suppress_output_round_trip (v : SuppressOutputPdu)
    (h : v.isValid = true) :
    SuppressOutputPdu.from_buffer v.to_buffer = .ok v [] := by
  rcases v with ⟨_ | r⟩
  · rfl
  · have h' : r.isValid = true := by
      simpa [SuppressOutputPdu.isValid] using h
    have hr := rect_round_trip r h' []
    rw [List.append_nil] at hr
    simp [SuppressOutputPdu.to_buffer, SuppressOutputPdu.from_buffer, readU8,
      AllowDisplayUpdatesType.as_u8, AllowDisplayUpdatesType.from_u8, hr]

/-- Witness for C1 at a concrete valid value with the rectangle present. -/
theorem c1_suppress_output_round_trip_witness :
    SuppressOutputPdu.isValid
        { desktop_rect := some { left := 1, top := 2, right := 3, bottom := 4 } } = true ∧
      SuppressOutputPdu.from_buffer
          (SuppressOutputPdu.to_buffer
            { desktop_rect := some { left := 1, top := 2, right := 3, bottom := 4 } }) =
        .ok { desktop_rect := some { left := 1, top := 2, right := 3, bottom := 4 } } [] :=
  ⟨by decide, c1_suppress_output_round_trip
    { desktop_rect := some { left := 1, top := 2, right := 3, bottom := 4 } } (by decide)⟩

/-- Claim C2: `buffer_length` (a pure function of the value in this
embedding) equals the number of bytes `to_buffer` writes, for every value. -/
theorem c2_buffer_length_consistency (v : SuppressOutputPdu) :
    v.buffer_length = v.to_buffer.length := by
  rcases v with ⟨_ | r⟩ <;>
    simp [SuppressOutputPdu.buffer_length, SuppressOutputPdu.to_buffer,
      InclusiveRectangle.buffer_length, InclusiveRectangle.to_buffer, u16le,
      AllowDisplayUpdatesType.as_u8]

/-- Claim C4: every input whose first byte is outside `{0x00, 0x01}` maps to
no variant and makes `from_buffer` return the `InvalidData` decode error
(the embedding is a total function, so no panic and no defaulted value). -/
theorem c4_invalid_discriminant_rejected (b : Nat) (rest : List Nat)
    (h0 : b ≠ 0x00) (h1 : b ≠ 0x01) :
    AllowDisplayUpdatesType.from_u8 b = none ∧
      SuppressOutputPdu.from_buffer (b :: rest) = .error .invalidData := by
  have hn := from_u8_eq_none b h0 h1
  exact ⟨hn, by simp [SuppressOutputPdu.from_buffer, readU8, hn]⟩

/-- Witness for C4 at the spec's concrete input: discriminant byte 0x02. -/
theorem c4_invalid_discriminant_rejected_witness :
    AllowDisplayUpdatesType.from_u8 0x02 = none ∧
      SuppressOutputPdu.from_buffer [0x02, 0x00, 0x00, 0x00] = .error .invalidData :=
  c4_invalid_discriminant_rejected 0x02 [0x00, 0x00, 0x00, 0x00]
    (by decide) (by decide)

/-- Claim C6: a `0x00` discriminant decodes to an absent rectangle and
consumes exactly 4 bytes whatever the padding and trailing bytes are (in
particular `[0,0,0,0]` decodes with `buffer_length` 4); a `0x01`
discriminant decodes to a present rectangle and additionally consumes
exactly the rectangle's 8 encoded bytes. -/
theorem c6_conditional_field_pairing :
    (∀ p1 p2 p3 rest, SuppressOutputPdu.from_buffer (0x00 :: p1 :: p2 :: p3 :: rest) =
        .ok { desktop_rect := none } rest) ∧
      (SuppressOutputPdu.from_buffer [0x00, 0x00, 0x00, 0x00] =
          .ok { desktop_rect := none } [] ∧
        SuppressOutputPdu.buffer_length { desktop_rect := none } = 4) ∧
      ∀ p1 p2 p3 rest r rem,
        InclusiveRectangle.from_buffer rest = .ok r rem →
          SuppressOutputPdu.from_buffer (0x01 :: p1 :: p2 :: p3 :: rest) =
              .ok { desktop_rect := some r } rem ∧
            rem = List.drop 8 rest := by
  refine ⟨fun p1 p2 p3 rest => rfl, ⟨by decide, by decide⟩, ?_⟩
  intro p1 p2 p3 rest r rem h
  refine ⟨?_, rect_from_buffer_drop rest r rem h⟩
  simp [SuppressOutputPdu.from_buffer, readU8, AllowDisplayUpdatesType.from_u8, h]

/-- Witness for C6 at a concrete allow-PDU with nonzero padding bytes. -/
theorem c6_conditional_field_pairing_witness :
    InclusiveRectangle.from_buffer [1, 0, 2, 0, 3, 0, 4, 0] =
        .ok { left := 1, top := 2, right := 3, bottom := 4 } [] ∧
      SuppressOutputPdu.from_buffer [0x01, 9, 9, 9, 1, 0, 2, 0, 3, 0, 4, 0] =
          .ok { desktop_rect := some { left := 1, top := 2, right := 3, bottom := 4 } } [] ∧
        ([] : List Nat) = List.drop 8 [1, 0, 2, 0, 3, 0, 4, 0] := by
  have h := c6_conditional_field_pairing.2.2 9 9 9 [1, 0, 2, 0, 3, 0, 4, 0]
    { left := 1, top := 2, right := 3, bottom := 4 } [] (by decide)
  exact ⟨by decide, h.1, h.2⟩

/-- Claim C7: every encoding starts with the derived discriminant byte
(0x01 exactly when the rectangle is present) followed by three zero padding
bytes and then the rectangle's bytes; and the decoder's result does not
depend on the values of the three padding bytes. -/
theorem c7_header_layout_and_padding_ignored :
    (∀ p : SuppressOutputPdu,
        p.to_buffer =
          (if (p.desktop_rect).isSome then 0x01 else 0x00) :: 0 :: 0 :: 0 ::
            (match p.desktop_rect with
             | some r => r.to_buffer
             | none => [])) ∧
      ∀ (b p1 p2 p3 q1 q2 q3 : Nat) (rest : List Nat),
        SuppressOutputPdu.from_buffer (b :: p1 :: p2 :: p3 :: rest) =
          SuppressOutputPdu.from_buffer (b :: q1 :: q2 :: q3 :: rest) := by
  constructor
  · intro p
    rcases p with ⟨_ | r⟩ <;> rfl
  · intro b p1 p2 p3 q1 q2 q3 rest
    simp only [SuppressOutputPdu.from_buffer, readU8]

/-- Claim C10: the discriminant conversion is a bijection on the valid set:
`from_u8` inverts `as_u8` on both variants, and any byte that `from_u8`
accepts is reproduced by `as_u8`. -/
theorem c10_discriminant_bijection :
    (∀ v : AllowDisplayUpdatesType, AllowDisplayUpdatesType.from_u8 v.as_u8 = some v) ∧
      ∀ (b : Nat) (v : AllowDisplayUpdatesType),
        AllowDisplayUpdatesType.from_u8 b = some v → v.as_u8 = b := by
  constructor
  · intro v
    cases v <;> rfl
  · intro b v h
    match b with
    | 0 =>
      injection h with h
      subst h
      rfl
    | 1 =>
      injection h with h
      subst h
      rfl
    | n + 2 => exact absurd h (by simp [AllowDisplayUpdatesType.from_u8])

/-- Witness for C10 at the concrete byte 0x01. -/
theorem c10_discriminant_bijection_witness :
    AllowDisplayUpdatesType.allowDisplayUpdates.as_u8 = 0x01 :=
  c10_discriminant_bijection.2 0x01 .allowDisplayUpdates (by decide)

/-- Counterexample to claim C3: the repository's 232-byte reference encoding
is not the interleaved layout the claim describes; at offset 12 the buffer
carries 0xb8 (the low byte of the certificate length) where the claimed
layout carries 0x10 (the first nonce byte). -/
theorem c3_interleaved_layout_refuted :
    SERVER_SECURITY_DATA_WITH_OPTIONAL_FIELDS_BUFFER ≠
        serverSecurityInterleavedLayout ∧
      SERVER_SECURITY_DATA_WITH_OPTIONAL_FIELDS_BUFFER[12]? = some 0xb8 ∧
      serverSecurityInterleavedLayout[12]? = some 0x10 := by decide

/-- Claim C3 as amended: in the 232-byte reference encoding the two 4-byte
little-endian length prefixes both come directly after the 8-byte fixed
prefix — nonce length at offset 8, certificate length at offset 12 — and the
two payloads follow, nonce at offset 16 and certificate at offset 48. -/
theorem c3_both_lengths_precede_payloads :
    SERVER_SECURITY_DATA_WITH_OPTIONAL_FIELDS_BUFFER.length = 232 ∧
      SERVER_SECURITY_DATA_WITH_OPTIONAL_FIELDS_BUFFER.take 8 =
        SERVER_SECURITY_DATA_WITH_OPTIONAL_FIELDS_PREFIX_BUFFER ∧
      (SERVER_SECURITY_DATA_WITH_OPTIONAL_FIELDS_BUFFER.drop 8).take 4 = u32le 32 ∧
      (SERVER_SECURITY_DATA_WITH_OPTIONAL_FIELDS_BUFFER.drop 12).take 4 = u32le 184 ∧
      (SERVER_SECURITY_DATA_WITH_OPTIONAL_FIELDS_BUFFER.drop 16).take 32 =
        SERVER_RANDOM_BUFFER ∧
      SERVER_SECURITY_DATA_WITH_OPTIONAL_FIELDS_BUFFER.drop 48 = SERVER_CERT_BUFFER := by
  decide

/-- Claim C5: decoding the 233-byte adversarial buffer (nonce-length prefix
33 instead of 32) fails with the server-random length-mismatch error; the
same error already arises from just the first 12 bytes, so the decoder
decides it without reading any payload byte. -/
theorem c5_invalid_server_random_len_rejected :
    ServerSecurityData.from_buffer
        SERVER_SECURITY_DATA_WITH_INVALID_SERVER_RANDOM_BUFFER =
      .error .invalidServerRandomLen ∧
      ServerSecurityData.from_buffer
          (SERVER_SECURITY_DATA_WITH_INVALID_SERVER_RANDOM_BUFFER.take 12) =
        .error .invalidServerRandomLen := by decide

/-- Counterexample to claim C8: decoding empty required fields followed by
populated length-prefixed optional fields yields the without-optional-fields
value — `server_random = none`, certificate empty — with the optional bytes
left unconsumed, not the mismatch fixture's populated fields. -/
theorem c8_optional_fields_not_decoded :
    ServerSecurityData.from_buffer SERVER_SECURITY_DATA_MISMATCH_INPUT =
        .ok SERVER_SECURITY_DATA_WITHOUT_OPTIONAL_FIELDS
          (SERVER_SECURITY_DATA_MISMATCH_INPUT.drop 8) ∧
      SERVER_SECURITY_DATA_WITHOUT_OPTIONAL_FIELDS.server_random = none ∧
      SERVER_SECURITY_DATA_WITH_MISMATCH_OF_REQUIRED_AND_OPTIONAL_FIELDS.server_random =
        some SERVER_RANDOM_BUFFER := by decide

/-- Claim C8 as amended: when the required fields are empty (method 0, level
`None`) the decoder stops after the 8 fixed bytes, yields absent optional
fields, and leaves every following byte unconsumed — whatever those bytes
contain. -/
theorem c8_empty_required_fields_stop_after_8_bytes (rest : List Nat) :
    ServerSecurityData.from_buffer
        (SERVER_SECURITY_DATA_WITHOUT_OPTIONAL_FIELDS_BUFFER ++ rest) =
      .ok SERVER_SECURITY_DATA_WITHOUT_OPTIONAL_FIELDS rest := rfl

/-- Claim C9: the 8-byte client security fixture decodes to the bit-flag
union {BIT_40, BIT_128, BIT_56, FIPS} with extended field 0, and encoding
that value reproduces exactly the 8 fixture bytes. -/
theorem c9_client_security_fixture_round_trip :
    ClientSecurityData.from_buffer CLIENT_SECURITY_DATA_BUFFER =
        .ok CLIENT_SECURITY_DATA [] ∧
      CLIENT_SECURITY_DATA.to_buffer = CLIENT_SECURITY_DATA_BUFFER := by decide
